import Mathlib

/-!
Verification of the parking-state detection logic of the HHparking
repository (src/src/services/LocationService.ts).

The embedding mirrors the fields of the `LocationService` class and the
bodies of `startLocationTracking`, `stopLocationTracking`,
`detectParkingState`, `getCurrentLocation` (its success callback) and
`calculateDistance`.  The state-machine part is parameterised by the
distance function (the code calls `this.calculateDistance` as an opaque
helper), over an arbitrary linear ordered commutative ring of scalars;
the haversine `calculateDistance` itself is modelled over the reals.

Timing: `setTimeout(cb, stationaryThreshold * 1000)` schedules a single
callback that fires once `stationaryThreshold` seconds have elapsed,
unless cancelled by `clearTimeout`.  We model a pending timer as the
captured `newLocation` together with its fire deadline, and a sample
arriving at time `t` first runs any timer whose deadline has passed
(the event loop delivers the due timeout callback before a later
position callback), then runs the watch callback body.
-/

namespace HHparking

/-- A coordinate value `{latitude, longitude}` as used throughout
`LocationService.ts`. -/
structure Coordinate (α : Type) where
  latitude : α
  longitude : α
deriving DecidableEq, Repr

/-- The mutable fields of the `LocationService` class that the detection
logic reads and writes (lines 7-11 of LocationService.ts):
`watchId`, `lastLocation`, `isParked`, `stationaryTimer`.
A pending `stationaryTimer` is the `newLocation` captured by the
`setTimeout` closure together with the absolute time at which the
timeout fires. -/
structure ServiceState (α : Type) where
  watchId : Option Nat
  lastLocation : Option (Coordinate α)
  isParked : Bool
  stationaryTimer : Option (Coordinate α × α)
deriving DecidableEq, Repr

/-- `stationaryThreshold = 30` seconds (line 10). -/
def stationaryThreshold (α : Type) [LinearOrderedCommRing α] : α := 30

/-- The field initialisers of the class: `watchId = null`,
`lastLocation = null`, `isParked = false`, `stationaryTimer = null`. -/
def initialState (α : Type) : ServiceState α :=
  { watchId := none, lastLocation := none, isParked := false,
    stationaryTimer := none }

/-- The two events the detection logic can emit through its callbacks:
`onParkingDetected` and `onLeavingDetected`. -/
inductive Event (α : Type) where
  | parkDetected (location : Coordinate α)
  | leavingDetected (location : Coordinate α)
deriving DecidableEq, Repr

variable {α : Type} [LinearOrderedCommRing α]

/-- The body of `detectParkingState` (lines 112-144), parameterised by the
distance function `dist` (the code calls `this.calculateDistance`).
`now` is the wall-clock time at which the sample is processed; starting
the timer records deadline `now + stationaryThreshold`.
Returns the updated state and the event emitted synchronously by this
call (`onLeavingDetected`); the `onParkingDetected` callback is run
later, by the timeout (see `fireStationaryTimer`). -/
def detectParkingState (dist : Coordinate α → Coordinate α → α)
    (now : α) (newLocation : Coordinate α) (s : ServiceState α) :
    ServiceState α × Option (Event α) :=
  match s.lastLocation with
  | none => (s, none)  -- `if (!this.lastLocation) return;`
  | some lastLocation =>
    let distance := dist lastLocation newLocation
    -- `const isStationary = distance < 20;`
    if distance < 20 ∧ s.isParked = false then
      -- user might be parking: start a timer only if none is pending
      match s.stationaryTimer with
      | none =>
          let pending := (newLocation, now + stationaryThreshold α)
          ({s with stationaryTimer := some pending}, none)
      | some _ => (s, none)
    else if ¬ distance < 20 then
      -- user is moving: clear any pending timer
      let cleared :=
        match s.stationaryTimer with
        | some _ => {s with stationaryTimer := none}
        | none => s
      if s.isParked = true ∧ distance > 50 then
        -- user is leaving the parking spot
        ({cleared with isParked := false},
         some (Event.leavingDetected lastLocation))
      else (cleared, none)
    else (s, none)  -- stationary while already parked: nothing happens

/-- The `setTimeout` callback scheduled at line 125: sets
`isParked = true`, emits `onParkingDetected(newLocation)` with the
location captured when the timer was started, and clears the timer. -/
def fireStationaryTimer (s : ServiceState α) :
    ServiceState α × Option (Event α) :=
  match s.stationaryTimer with
  | none => (s, none)
  | some pending =>
      ({s with isParked := true, stationaryTimer := none},
       some (Event.parkDetected pending.1))

/-- Runs the pending timeout callback if its deadline has passed by time
`now` (the event loop delivers a due timeout before any later event). -/
def fireDueTimer (now : α) (s : ServiceState α) :
    ServiceState α × Option (Event α) :=
  match s.stationaryTimer with
  | none => (s, none)
  | some pending =>
      if pending.2 ≤ now then fireStationaryTimer s else (s, none)

/-- The body of the `watchPosition` success callback installed by
`startLocationTracking` (lines 80-89): run `detectParkingState` on the
new location, then assign `this.lastLocation = newLocation`. -/
def onWatchPosition (dist : Coordinate α → Coordinate α → α)
    (now : α) (newLocation : Coordinate α) (s : ServiceState α) :
    ServiceState α × Option (Event α) :=
  let result := detectParkingState dist now newLocation s
  ({result.1 with lastLocation := some newLocation}, result.2)

/-- Processing of one location sample delivered at time `now`: any due
timeout callback runs first, then the watch callback body.  Returns the
list of events emitted, in order. -/
def processSample (dist : Coordinate α → Coordinate α → α)
    (s : ServiceState α) (now : α) (newLocation : Coordinate α) :
    ServiceState α × List (Event α) :=
  let fired := fireDueTimer now s
  let handled := onWatchPosition dist now newLocation fired.1
  (handled.1, fired.2.toList ++ handled.2.toList)

/-- Feeding a whole timestamped trace of samples, collecting all emitted
events in order. -/
def runTrace (dist : Coordinate α → Coordinate α → α)
    (s : ServiceState α) :
    List (α × Coordinate α) → ServiceState α × List (Event α)
  | [] => (s, [])
  | (t, loc) :: rest =>
    let step := processSample dist s t loc
    let tail := runTrace dist step.1 rest
    (tail.1, step.2 ++ tail.2)

/-- `startLocationTracking` (lines 74-99): stores the watch id returned by
`Geolocation.watchPosition`.  Nothing else in the state is touched. -/
def startLocationTracking (id : Nat) (s : ServiceState α) :
    ServiceState α :=
  {s with watchId := some id}

/-- `stopLocationTracking` (lines 101-110): clears the watch if one is
active, and clears (cancels) the pending timer if one is pending.
`lastLocation` and `isParked` are not touched. -/
def stopLocationTracking (s : ServiceState α) : ServiceState α :=
  let s1 :=
    match s.watchId with
    | some _ => {s with watchId := none}
    | none => s
  match s1.stationaryTimer with
  | some _ => {s1 with stationaryTimer := none}
  | none => s1

/-- The success callback of `getCurrentLocation` (lines 52-59): stores the
obtained fix in `this.lastLocation` (and resolves the promise with it). -/
def getCurrentLocationSuccess (location : Coordinate α)
    (s : ServiceState α) : ServiceState α :=
  {s with lastLocation := some location}

/-- `Math.atan2(y, x)`: the angle of the point `(x, y)`, computed from
`arctan (y / x)` with the usual quadrant corrections. -/
noncomputable def atan2 (y x : ℝ) : ℝ :=
  if 0 < x then Real.arctan (y / x)
  else if x < 0 ∧ 0 ≤ y then Real.arctan (y / x) + Real.pi
  else if x < 0 ∧ y < 0 then Real.arctan (y / x) - Real.pi
  else if x = 0 ∧ 0 < y then Real.pi / 2
  else if x = 0 ∧ y < 0 then -(Real.pi / 2)
  else 0

/-- `calculateDistance` (lines 146-162): the haversine formula with
Earth radius `R = 6371e3` metres, modelled over the reals. -/
noncomputable def calculateDistance (pos1 pos2 : Coordinate ℝ) : ℝ :=
  let R : ℝ := 6371000  -- 6371e3, Earth radius in meters
  let phi1 := pos1.latitude * Real.pi / 180
  let phi2 := pos2.latitude * Real.pi / 180
  let dphi := (pos2.latitude - pos1.latitude) * Real.pi / 180
  let dlambda := (pos2.longitude - pos1.longitude) * Real.pi / 180
  let a :=
    Real.sin (dphi / 2) * Real.sin (dphi / 2) +
      Real.cos phi1 * Real.cos phi2 *
        (Real.sin (dlambda / 2) * Real.sin (dlambda / 2))
  let c := 2 * atan2 (Real.sqrt a) (Real.sqrt (1 - a))
  R * c

/-! ### Concrete fixtures used by the counterexamples and witnesses

The state-machine theorems below are generic in the distance function,
so they are instantiated on a simple computable taxicab distance over
integer scalars; the coordinate values are chosen so that the pairwise
distances hit the relevant thresholds (20 m, 50 m). -/

/-- A computable distance function over integer scalars used to
instantiate the generic machine on concrete inputs. -/
def testDist (a b : Coordinate ℤ) : ℤ :=
  |a.latitude - b.latitude| + |a.longitude - b.longitude|

/-- The spot at which parking gets confirmed in the concrete traces. -/
def spotP : Coordinate ℤ := ⟨0, 0⟩

/-- A point 10 m from `spotP` (within the 20 m stationary radius). -/
def spotQ : Coordinate ℤ := ⟨10, 0⟩

/-- A point 30 m from `spotP` (between the 20 m and 50 m radii). -/
def spotA : Coordinate ℤ := ⟨30, 0⟩

/-- A point 60 m from `spotP` (beyond the 50 m leaving radius) but only
30 m from `spotA`. -/
def spotB : Coordinate ℤ := ⟨60, 0⟩

/-- A point 120 m from `spotP` and 90 m from `spotA`. -/
def spotC : Coordinate ℤ := ⟨120, 0⟩

/-- A trace that confirms a park at `spotP`: a baseline sample at `t = 0`,
a stationary sample at `t = 5` (starts the 30 s timer), and a sample at
`t = 40` (the timer, due at `t = 35`, fires first). -/
def parkTrace : List (ℤ × Coordinate ℤ) :=
  [(0, spotP), (5, spotP), (40, spotP)]

/-- The machine state after `parkTrace`: parked, with
`lastLocation = spotP` and no pending timer. -/
def parkedState : ServiceState ℤ :=
  (runTrace testDist (initialState ℤ) parkTrace).1

/-! ### Theorems -/

/-- Helper: when no timer is pending, delivering a sample at time `t`
fires nothing beforehand. -/
theorem fireDueTimer_no_timer (t : α) {s : ServiceState α}
    (h : s.stationaryTimer = none) : fireDueTimer t s = (s, none) := by
  simp [fireDueTimer, h]

/-- C1 counterexample: the code does NOT measure the leaving displacement
from the parked anchor.  Run the park-confirming trace (park confirmed
at `spotP`, reported by the single `parkDetected spotP` event), then
feed `spotA` (30 m from `spotP`) and `spotB` (60 m from `spotP`, but
only 30 m from `spotA`).  The machine is still parked when `spotB`
arrives and `spotB` is more than 50 m from the parked anchor `spotP`,
yet no `leavingDetected` event is ever emitted, because the code
measures each displacement from `lastLocation`, which was silently
advanced to `spotA`. -/
theorem leaving_not_measured_from_parked_anchor :
    (runTrace testDist (initialState ℤ)
        (parkTrace ++ [(45, spotA), (50, spotB)])).2 =
      [Event.parkDetected spotP] ∧
      testDist spotP spotB > 50 ∧
      (runTrace testDist (initialState ℤ)
        (parkTrace ++ [(45, spotA)])).1.isParked = true := by
  decide

/-- C1 (amended): while parked (with no pending timer), feeding a sample
emits `leavingDetected` if and only if the distance from the stored
`lastLocation` — the immediately prior sample, not a pinned parked
anchor — to the new sample exceeds 50 m, and the event then carries
that prior sample. -/
theorem parked_leaving_iff_distance_from_last
    (dist : Coordinate α → Coordinate α → α) (s : ServiceState α)
    (t : α) (last newLoc : Coordinate α)
    (hp : s.isParked = true) (hl : s.lastLocation = some last)
    (ht : s.stationaryTimer = none) :
    (processSample dist s t newLoc).2 =
      if dist last newLoc > 50 then [Event.leavingDetected last] else [] := by
  obtain ⟨w, ll, p, tm⟩ := s
  simp only at hp hl ht
  subst hp hl ht
  by_cases h50 : dist last newLoc > 50
  · have h20 : ¬ dist last newLoc < 20 := by
      have : (20 : α) < 50 := by norm_num
      intro hlt
      linarith
    simp [processSample, fireDueTimer, onWatchPosition, detectParkingState,
      h50, h20]
  · by_cases h20 : dist last newLoc < 20
    · simp [processSample, fireDueTimer, onWatchPosition, detectParkingState,
        h50, h20]
    · simp [processSample, fireDueTimer, onWatchPosition, detectParkingState,
        h50, h20]

/-- C1 witness: the amended statement evaluated on the concrete parked
state, with a sample 60 m from the stored location. -/
theorem parked_leaving_iff_distance_from_last_witness :
    (processSample testDist parkedState 45 spotB).2 =
      if testDist spotP spotB > 50 then [Event.leavingDetected spotP] else [] :=
  parked_leaving_iff_distance_from_last testDist parkedState 45 spotP spotB
    (by decide) (by decide) (by decide)

/-- C2 counterexample: a `leavingDetected` event does NOT always carry
the coordinate at which parking was confirmed.  After the park is
confirmed at `spotP`, feeding `spotA` (30 m away, no event) lets
`lastLocation` drift to `spotA`; the subsequent far sample `spotC`
then emits `leavingDetected spotA`, not `leavingDetected spotP`. -/
theorem leaving_payload_not_parked_coordinate :
    (runTrace testDist (initialState ℤ)
        (parkTrace ++ [(45, spotA), (50, spotC)])).2 =
      [Event.parkDetected spotP, Event.leavingDetected spotA] ∧
      spotA ≠ spotP := by
  decide

/-- C2 (amended): every `leavingDetected` event carries the stored
`lastLocation` (the immediately prior sample), never the new live
sample; immediately after a confirmed park this coincides with the
parked coordinate, so a far sample fed right after the confirmation
emits exactly one `leavingDetected` carrying the parked coordinate. -/
theorem leaving_event_carries_last_location
    (dist : Coordinate α → Coordinate α → α) (s : ServiceState α)
    (t : α) (loc c : Coordinate α)
    (h : Event.leavingDetected c ∈ (processSample dist s t loc).2) :
    s.lastLocation = some c := by
  obtain ⟨w, ll, p, tm⟩ := s
  cases tm <;> cases ll <;>
    simp only [processSample, fireDueTimer, fireStationaryTimer,
      onWatchPosition, detectParkingState] at h ⊢ <;>
    (try split_ifs at h) <;> (try simp_all) <;>
    (try split_ifs at h) <;> simp_all

/-- C2 witness: feeding a sample 120 m away right after the confirmed
park emits a `leavingDetected` whose payload is the parked coordinate
`spotP`, which the theorem traces back to the stored location. -/
theorem leaving_event_carries_last_location_witness :
    parkedState.lastLocation = some spotP :=
  leaving_event_carries_last_location testDist parkedState 45 spotC spotP
    (by decide)

/-- C3 counterexample: the stored coordinate is NOT pinned while parked.
After the park is confirmed at `spotP`, feeding `spotA` — 30 m away,
between the 20 m stationary radius and the 50 m leaving radius — emits
no event (as the claim says), but the stored `lastLocation` changes
from `spotP` to `spotA` even though no `leavingDetected` fired. -/
theorem parked_anchor_changes_on_eventless_feed :
    (runTrace testDist (initialState ℤ) (parkTrace ++ [(45, spotA)])).2 =
      [Event.parkDetected spotP] ∧
      (runTrace testDist (initialState ℤ)
        (parkTrace ++ [(45, spotA)])).1.lastLocation = some spotA ∧
      spotA ≠ spotP ∧
      20 ≤ testDist spotP spotA ∧ testDist spotP spotA ≤ 50 := by
  decide

/-- C3 (amended): while parked (no pending timer), a sample at most 50 m
from the stored location emits no event, but the stored `lastLocation`
is nevertheless replaced by the new sample on every feed — the anchor
is updated unconditionally, not only when `leavingDetected` fires. -/
theorem parked_feed_updates_last_location
    (dist : Coordinate α → Coordinate α → α) (s : ServiceState α)
    (t : α) (last loc : Coordinate α)
    (hp : s.isParked = true) (hl : s.lastLocation = some last)
    (ht : s.stationaryTimer = none) :
    (processSample dist s t loc).1.lastLocation = some loc ∧
      (dist last loc ≤ 50 → (processSample dist s t loc).2 = []) := by
  obtain ⟨w, ll, p, tm⟩ := s
  simp only at hp hl ht
  subst hp hl ht
  constructor
  · simp [processSample, fireDueTimer, onWatchPosition]
  · intro h50
    have h50n : ¬ dist last loc > 50 := by intro h; linarith
    by_cases h20 : dist last loc < 20
    · simp [processSample, fireDueTimer, onWatchPosition, detectParkingState,
        h20, h50n]
    · simp [processSample, fireDueTimer, onWatchPosition, detectParkingState,
        h20, h50n]

/-- C3 witness: the amended statement on the concrete parked state and a
sample 30 m away: no event, yet the stored location becomes `spotA`. -/
theorem parked_feed_updates_last_location_witness :
    (processSample testDist parkedState 45 spotA).1.lastLocation = some spotA ∧
      (processSample testDist parkedState 45 spotA).2 = [] := by
  have h := parked_feed_updates_last_location testDist parkedState 45
    spotP spotA (by decide) (by decide) (by decide)
  exact ⟨h.1, h.2 (by decide)⟩

/-- C4 counterexample: the `parkDetected` payload is NOT the sample that
arrives at confirmation time.  Samples: `spotP` at `t = 0`, `spotQ`
(10 m away) at `t = 5` — starting the 30 s timer that captures `spotQ`
and is due at `t = 35` — then `spotP` again at `t = 40`, within 20 m of
the stored location.  The claim demands `parkDetected spotP` (the newly
arrived sample); the code emits `parkDetected spotQ`, the sample
captured when the timer was started. -/
theorem park_event_payload_is_timer_start_sample :
    (runTrace testDist (initialState ℤ)
        [(0, spotP), (5, spotQ), (40, spotP)]).2 =
      [Event.parkDetected spotQ] ∧
      spotQ ≠ spotP ∧ testDist spotQ spotP < 20 ∧
      (runTrace testDist (initialState ℤ)
        [(0, spotP), (5, spotQ)]).1.stationaryTimer = some (spotQ, 35) := by
  decide

/-- C4 (amended): when a sample arrives within 20 m of the stored
location while a pending confirm-timer has elapsed, the machine does
transition to parked, clear the timer, and emit exactly one
`parkDetected` — but the event carries the sample captured when the
timer was started, not the newly arrived sample. -/
theorem due_timer_confirms_with_captured_sample
    (dist : Coordinate α → Coordinate α → α) (s : ServiceState α)
    (t : α) (last loc ploc : Coordinate α) (ft : α)
    (hl : s.lastLocation = some last)
    (htm : s.stationaryTimer = some (ploc, ft))
    (hdue : ft ≤ t) (hnear : dist last loc < 20) :
    processSample dist s t loc =
      ({s with isParked := true, stationaryTimer := none, lastLocation := some loc}, [Event.parkDetected ploc]) := by
  obtain ⟨w, ll, p, tm⟩ := s
  simp only at hl htm
  subst hl htm
  simp [processSample, fireDueTimer, fireStationaryTimer, onWatchPosition,
    detectParkingState, hdue, hnear]

/-- C4 witness: the amended statement on a concrete state with an
elapsed timer that captured `spotQ`, fed the sample `spotP`. -/
theorem due_timer_confirms_with_captured_sample_witness :
    processSample testDist
        (⟨none, some spotP, false, some (spotQ, 35)⟩ : ServiceState ℤ) 40 spotP =
      ({(⟨none, some spotP, false, some (spotQ, 35)⟩ : ServiceState ℤ) with isParked := true, stationaryTimer := none, lastLocation := some spotP}, [Event.parkDetected spotQ]) :=
  due_timer_confirms_with_captured_sample testDist
    (⟨none, some spotP, false, some (spotQ, 35)⟩ : ServiceState ℤ) 40
    spotP spotP spotQ 35 rfl rfl (by decide) (by decide)

/-- C5 counterexample: machine state DOES persist across tracking
sessions.  Reach the parked state, call `stopLocationTracking`, then
`startLocationTracking` again: the very first sample of the new
session (120 m away) immediately emits `leavingDetected spotP`,
because the parked flag and the stored location survived the stop —
a freshly created machine emits nothing on the same first sample. -/
theorem machine_state_survives_stop_start :
    (processSample testDist
        (startLocationTracking 1 (stopLocationTracking parkedState)) 60 spotC).2 =
      [Event.leavingDetected spotP] ∧
      (processSample testDist (initialState ℤ) 60 spotC).2 = [] := by
  decide

/-- C5 (amended): the machine is created empty (no watch, no stored
location, not parked, no timer), but `stopLocationTracking` clears
only the watch and the pending timer: the parked flag and the stored
last location persist across a stop, so a session started after a stop
does not behave like a freshly created machine. -/
theorem initial_empty_and_stop_preserves_park_state {β : Type} :
    initialState β = ⟨none, none, false, none⟩ ∧
      ∀ s : ServiceState β,
        (stopLocationTracking s).isParked = s.isParked ∧
          (stopLocationTracking s).lastLocation = s.lastLocation := by
  refine ⟨rfl, ?_⟩
  intro s
  obtain ⟨w, ll, p, tm⟩ := s
  cases w <;> cases tm <;> simp [stopLocationTracking]

/-- C6: after `stopLocationTracking` the pending timer is cancelled, so
no `parkDetected` can fire later no matter how much time elapses;
stopping is idempotent and a no-op when tracking was never started. -/
theorem stop_cancels_timer_and_is_idempotent (s : ServiceState α) (t : α) :
    (stopLocationTracking s).stationaryTimer = none ∧
      fireDueTimer t (stopLocationTracking s) = (stopLocationTracking s, none) ∧
      stopLocationTracking (stopLocationTracking s) = stopLocationTracking s ∧
      (s.watchId = none → s.stationaryTimer = none →
        stopLocationTracking s = s) := by
  obtain ⟨w, ll, p, tm⟩ := s
  have hnone : (stopLocationTracking
      (⟨w, ll, p, tm⟩ : ServiceState α)).stationaryTimer = none := by
    cases w <;> cases tm <;> simp [stopLocationTracking]
  refine ⟨hnone, fireDueTimer_no_timer t hnone, ?_, ?_⟩
  · cases w <;> cases tm <;> simp [stopLocationTracking]
  · intro hw ht
    simp only at hw ht
    subst hw ht
    simp [stopLocationTracking]

/-- C6 witness: the statement evaluated on a concrete not-started parked
state, waiting until time 1000 (far past any confirm delay). -/
theorem stop_cancels_timer_and_is_idempotent_witness :
    ((⟨none, some spotP, true, none⟩ : ServiceState ℤ).watchId = none ∧
      (⟨none, some spotP, true, none⟩ : ServiceState ℤ).stationaryTimer = none) ∧
      stopLocationTracking (⟨none, some spotP, true, none⟩ : ServiceState ℤ) =
        ⟨none, some spotP, true, none⟩ ∧
      fireDueTimer 1000
          (stopLocationTracking (⟨none, some spotP, true, none⟩ : ServiceState ℤ)) =
        (stopLocationTracking ⟨none, some spotP, true, none⟩, none) := by
  have h := stop_cancels_timer_and_is_idempotent
    (⟨none, some spotP, true, none⟩ : ServiceState ℤ) 1000
  exact ⟨⟨rfl, rfl⟩, h.2.2.2 rfl rfl, h.2.1⟩

/-- C7: the machine never holds a second pending timer.  Processing any
sample on a state with a pending timer either leaves exactly that
timer in place or clears it (by cancellation or by firing); it never
installs a different one.  Moreover, a stationary sample arriving
before the pending timer has elapsed (while not parked) leaves the
pending timer exactly unchanged — a no-op with respect to timer
scheduling. -/
theorem pending_timer_never_replaced
    (dist : Coordinate α → Coordinate α → α) (s : ServiceState α)
    (t : α) (loc : Coordinate α) (ploc : Coordinate α) (ft : α)
    (htm : s.stationaryTimer = some (ploc, ft)) :
    ((processSample dist s t loc).1.stationaryTimer = some (ploc, ft) ∨
      (processSample dist s t loc).1.stationaryTimer = none) ∧
      (∀ last, ¬ ft ≤ t → s.lastLocation = some last → dist last loc < 20 →
        s.isParked = false →
        (processSample dist s t loc).1.stationaryTimer = some (ploc, ft)) := by
  obtain ⟨w, ll, p, tm⟩ := s
  simp only at htm
  subst htm
  constructor
  · cases ll with
    | none =>
      by_cases hdue : ft ≤ t <;>
        simp [processSample, fireDueTimer, fireStationaryTimer,
          onWatchPosition, detectParkingState, hdue]
    | some last =>
      by_cases hdue : ft ≤ t
      · by_cases h20 : dist last loc < 20
        · simp [processSample, fireDueTimer, fireStationaryTimer,
            onWatchPosition, detectParkingState, hdue, h20]
        · by_cases h50 : (50 : α) < dist last loc <;>
            simp [processSample, fireDueTimer, fireStationaryTimer,
              onWatchPosition, detectParkingState, hdue, h20, h50]
      · by_cases h20 : dist last loc < 20
        · cases p <;>
            simp [processSample, fireDueTimer, fireStationaryTimer,
              onWatchPosition, detectParkingState, hdue, h20]
        · by_cases h50 : dist last loc > 50 <;> cases p <;>
            simp [processSample, fireDueTimer, fireStationaryTimer,
              onWatchPosition, detectParkingState, hdue, h20, h50]
  · intro last hdue hll h20 hp
    simp only at hll hp
    subst hll hp
    simp [processSample, fireDueTimer, fireStationaryTimer,
      onWatchPosition, detectParkingState, hdue, h20]

/-- C7 witness: a stationary sample at `t = 10`, while the timer started
at `t = 5` (due at `t = 35`) is still pending, leaves that timer
exactly in place. -/
theorem pending_timer_never_replaced_witness :
    (((processSample testDist
        (⟨none, some spotP, false, some (spotQ, 35)⟩ : ServiceState ℤ) 10
        spotP).1.stationaryTimer = some (spotQ, 35) ∨
      (processSample testDist
        (⟨none, some spotP, false, some (spotQ, 35)⟩ : ServiceState ℤ) 10
        spotP).1.stationaryTimer = none)) ∧
      (processSample testDist
        (⟨none, some spotP, false, some (spotQ, 35)⟩ : ServiceState ℤ) 10
        spotP).1.stationaryTimer = some (spotQ, 35) := by
  have h := pending_timer_never_replaced testDist
    (⟨none, some spotP, false, some (spotQ, 35)⟩ : ServiceState ℤ) 10 spotP
    spotQ 35 rfl
  exact ⟨h.1, h.2 spotP (by decide) rfl (by decide) rfl⟩

/-- C8: feeding the very first sample into a fresh machine (no stored
location, no pending timer) only records that sample as the stored
location and emits no event — it can never itself trigger a
transition. -/
theorem first_sample_only_establishes_baseline
    (dist : Coordinate α → Coordinate α → α) (s : ServiceState α)
    (t : α) (loc : Coordinate α)
    (hl : s.lastLocation = none) (ht : s.stationaryTimer = none) :
    processSample dist s t loc = ({s with lastLocation := some loc}, []) := by
  simp [processSample, fireDueTimer_no_timer t ht, onWatchPosition,
    detectParkingState, hl]

/-- C8 witness: the first sample fed to the freshly created machine. -/
theorem first_sample_only_establishes_baseline_witness :
    processSample testDist (initialState ℤ) 0 spotP =
      ({(initialState ℤ) with lastLocation := some spotP}, []) :=
  first_sample_only_establishes_baseline testDist (initialState ℤ) 0 spotP
    rfl rfl

/-- C9: the haversine `calculateDistance` is symmetric in its two
arguments and evaluates to zero on equal inputs. -/
theorem calculateDistance_symm_and_self_zero :
    (∀ a b : Coordinate ℝ, calculateDistance a b = calculateDistance b a) ∧
      ∀ a : Coordinate ℝ, calculateDistance a a = 0 := by
  constructor
  · intro p q
    unfold calculateDistance
    dsimp only
    have hsin : ∀ x y : ℝ,
        Real.sin ((x - y) * Real.pi / 180 / 2) *
            Real.sin ((x - y) * Real.pi / 180 / 2) =
          Real.sin ((y - x) * Real.pi / 180 / 2) *
            Real.sin ((y - x) * Real.pi / 180 / 2) := by
      intro x y
      have h : (x - y) * Real.pi / 180 / 2 = -((y - x) * Real.pi / 180 / 2) := by
        ring
      rw [h, Real.sin_neg]
      ring
    rw [hsin q.latitude p.latitude, hsin q.longitude p.longitude,
      mul_comm (Real.cos (p.latitude * Real.pi / 180))
        (Real.cos (q.latitude * Real.pi / 180))]
  · intro a
    simp [calculateDistance, atan2]

/-- C10: a successful `getCurrentLocation` stores the obtained fix as
the last-seen location, so the machine is no longer fresh: the next
tracked sample within 20 m of the fix immediately starts a
confirm-timer, whereas the same sample fed to the fresh machine would
only establish a baseline and start no timer. -/
theorem current_location_fix_seeds_detection
    (dist : Coordinate α → Coordinate α → α) (fix loc : Coordinate α)
    (t : α) (h : dist fix loc < 20) :
    processSample dist (getCurrentLocationSuccess fix (initialState α)) t loc =
      ({(initialState α) with lastLocation := some loc, stationaryTimer := some (loc, t + stationaryThreshold α)}, []) ∧
      (getCurrentLocationSuccess fix (initialState α)).lastLocation = some fix ∧
      (processSample dist (initialState α) t loc).1.stationaryTimer = none := by
  refine ⟨?_, rfl, ?_⟩
  · simp [processSample, fireDueTimer, onWatchPosition, detectParkingState,
      getCurrentLocationSuccess, initialState, h]
  · simp [processSample, fireDueTimer, onWatchPosition, detectParkingState,
      initialState]

/-- C10 witness: after a fix at `spotP`, the first tracked sample
`spotQ` (10 m away) immediately starts the confirm-timer. -/
theorem current_location_fix_seeds_detection_witness :
    processSample testDist (getCurrentLocationSuccess spotP (initialState ℤ)) 0 spotQ =
      ({(initialState ℤ) with lastLocation := some spotQ, stationaryTimer := some (spotQ, 0 + stationaryThreshold ℤ)}, []) ∧
      (getCurrentLocationSuccess spotP (initialState ℤ)).lastLocation = some spotP ∧
      (processSample testDist (initialState ℤ) 0 spotQ).1.stationaryTimer = none :=
  current_location_fix_seeds_detection testDist spotP spotQ 0 (by decide)

end HHparking
